import Mathlib

/-!
Shallow embedding of the Eyes on the Street presence-estimation and
safety-classification core (server.js / scripts/build-crime-model.js /
scripts/build-model.js), together with theorems settling the spec claims.

Numeric conventions: JavaScript numbers are modelled as exact rationals (ℚ)
where the code does field arithmetic and comparisons, and as reals (ℝ) where
the code applies transcendental functions (exp, sin, cos, atan2, sqrt).
`Math.round` on a non-negative JS number is `⌊x + 1/2⌋` (ties round up),
which is what `jsRound` implements for every rational.
-/

namespace EyesOnTheStreet

/-- JS `Math.round` on finite inputs: round half toward positive infinity. -/
def jsRound (x : ℚ) : ℤ := ⌊x + 1/2⌋

/-- `Math.round (Math.sqrt v)` for a rational `v` (used with `v ≥ 0`):
the integer nearest to `√v`, ties rounding up.  Computable characterization:
start from `Nat.sqrt ⌊v⌋` and bump by one when `(n + 1/2)² ≤ v`. -/
def roundSqrt (v : ℚ) : ℕ :=
  if ((Nat.sqrt (max 0 ⌊v⌋).toNat : ℚ) + 1/2)^2 ≤ v then
    Nat.sqrt (max 0 ⌊v⌋).toNat + 1
  else Nat.sqrt (max 0 ⌊v⌋).toNat

-- ---------------------------------------------------------------------------
-- Safety classification policy (server.js, computeSafetyLevel)
-- ---------------------------------------------------------------------------

/-- The three safety tiers. -/
inductive SafetyLevel
  | safe
  | caution
  | avoid
  deriving DecidableEq, Repr

/-- Numeric rank of a tier: `safe` lowest, `avoid` highest. -/
def SafetyLevel.rank : SafetyLevel → ℕ
  | .safe => 0
  | .caution => 1
  | .avoid => 2

/-- `const isNight = hour >= 22 || hour < 6` (server.js). -/
def isNightHour (hour : ℕ) : Prop := 22 ≤ hour ∨ hour < 6

instance (hour : ℕ) : Decidable (isNightHour hour) := by
  unfold isNightHour; infer_instance

/-- `const isEvening = hour >= 18 && hour < 22` (server.js). -/
def isEveningHour (hour : ℕ) : Prop := 18 ≤ hour ∧ hour < 22

instance (hour : ℕ) : Decidable (isEveningHour hour) := by
  unfold isEveningHour; infer_instance

/-- `computeSafetyLevel(ridership, crimeRisk, hour)` from server.js,
translated clause for clause (the cascading returns become nested ifs). -/
def computeSafetyLevel (ridership crimeRisk : ℚ) (hour : ℕ) : SafetyLevel :=
  if ¬isNightHour hour ∧ ¬isEveningHour hour then
    -- DAYTIME (6am-6pm)
    if crimeRisk ≥ 0.8 ∧ ridership < 15 then .caution else .safe
  else if isEveningHour hour then
    -- EVENING (6pm-10pm)
    if crimeRisk ≥ 0.7 ∧ ridership < 25 then .avoid
    else if crimeRisk ≥ 0.5 ∧ ridership < 15 then .caution
    else .safe
  else
    -- LATE NIGHT (10pm-6am)
    if crimeRisk ≥ 0.5 ∧ ridership < 15 then .avoid
    else if crimeRisk ≥ 0.3 ∧ ridership < 25 then .caution
    else if ridership < 5 ∧ crimeRisk ≥ 0.15 then .caution
    else .safe

/-- The spec's decision table (§4.4), written from the spec's words:
each period's rules evaluated top-down, first match wins. -/
def specClassify (ridership crimeRisk : ℚ) (hour : ℕ) : SafetyLevel :=
  if 6 ≤ hour ∧ hour < 18 then
    if crimeRisk ≥ 0.8 ∧ ridership < 15 then .caution else .safe
  else if 18 ≤ hour ∧ hour < 22 then
    if crimeRisk ≥ 0.7 ∧ ridership < 25 then .avoid
    else if crimeRisk ≥ 0.5 ∧ ridership < 15 then .caution
    else .safe
  else
    if crimeRisk ≥ 0.5 ∧ ridership < 15 then .avoid
    else if crimeRisk ≥ 0.3 ∧ ridership < 25 then .caution
    else if ridership < 5 ∧ crimeRisk ≥ 0.15 then .caution
    else .safe

-- ---------------------------------------------------------------------------
-- Disruption escalation (server.js, computePresence, alert-aware elevation)
-- ---------------------------------------------------------------------------

/-- A station's active disruption entry (`disruptedComplexes[id]`). -/
structure Disruption where
  effect : String
  routes : List String

/-- The alert-aware risk elevation step of `computePresence`:
`No Service` escalates one tier; `Significant Delays` escalates
`safe → caution` only at night; anything else leaves the level alone. -/
def applyDisruption (d : Option Disruption) (isNight : Bool) (level : SafetyLevel) :
    SafetyLevel :=
  match d with
  | none => level
  | some dis =>
    if dis.effect = "No Service" then
      if level = .safe then .caution
      else if level = .caution then .avoid
      else level
    else if dis.effect = "Significant Delays" ∧ isNight = true then
      if level = .safe then .caution else level
    else level

-- ---------------------------------------------------------------------------
-- Presence computation: train modulation, weather modulation, anomaly flag
-- (server.js, computePresence)
-- ---------------------------------------------------------------------------

/-- The weather descriptor fields consumed by `computePresence`. -/
structure Weather where
  isRain : Bool
  isSnow : Bool
  isExtreme : Bool

/-- The `weatherModifier` assignment in `computePresence`: snow 0.70, rain
0.80, extreme 0.85, otherwise 1.0; stays 1.0 when no weather data. -/
def weatherModifier (w : Option Weather) : ℚ :=
  match w with
  | none => 1.0
  | some weather =>
    if weather.isSnow then 0.70
    else if weather.isRain then 0.80
    else if weather.isExtreme then 0.85
    else 1.0

/-- `expectedTrains` tiering in `computePresence`. -/
def expectedTrains (baseline : ℤ) : ℚ :=
  if baseline > 5000 then 12
  else if baseline > 2000 then 8
  else if baseline > 500 then 5
  else 3

/-- `modulation = 0.7 + 0.3 * (trainCount / expectedTrains)`. -/
def trainModulation (baseline : ℤ) (trainCount : ℕ) : ℚ :=
  0.7 + 0.3 * ((trainCount : ℚ) / expectedTrains baseline)

/-- The train-modulation step: when trains are arriving and the baseline is
positive, `ridership = Math.round(baseline * Math.min(modulation, 2.0))`,
otherwise the baseline passes through unmodified. -/
def trainModulatedRidership (baseline : ℤ) (trainCount : ℕ) : ℤ :=
  if 0 < trainCount ∧ 0 < baseline then
    jsRound ((baseline : ℚ) * min (trainModulation baseline trainCount) 2.0)
  else baseline

/-- The ridership value after both modulation steps, exactly as sequenced in
`computePresence`: the train-modulated (already rounded) value is multiplied
by the weather modifier and rounded again. -/
def presenceRidership (baseline : ℤ) (trainCount : ℕ) (w : Option Weather) : ℤ :=
  let ridership1 : ℤ := trainModulatedRidership baseline trainCount
  let ridership2 : ℤ := jsRound ((ridership1 : ℚ) * weatherModifier w)
  ridership2

/-- `anomalyScore = baseline > 0 ? (ridership - baseline) / baseline : 0`. -/
def anomalyScore (ridership baseline : ℚ) : ℚ :=
  if 0 < baseline then (ridership - baseline) / baseline else 0

/-- The anomaly decision in `computePresence`: z-score test when the stddev is
positive and the baseline exceeds the volume gate, else percentage fallback. -/
def isAnomaly (ridership baseline stddev : ℚ) : Prop :=
  if 0 < stddev ∧ 50 < baseline then 2.0 < |(ridership - baseline) / stddev|
  else 0.3 < |anomalyScore ridership baseline| ∧ 50 < baseline

instance (r b s : ℚ) : Decidable (isAnomaly r b s) := by
  unfold isAnomaly; infer_instance

/-- The anomaly rule as the spec words it: statistical test under the gate,
otherwise flag iff `|ridership − baseline| / baseline > 0.3` and
`baseline > 50`. -/
def specAnomaly (ridership baseline stddev : ℚ) : Prop :=
  if 0 < stddev ∧ 50 < baseline then 2.0 < |(ridership - baseline) / stddev|
  else 0.3 < |ridership - baseline| / baseline ∧ 50 < baseline

-- ---------------------------------------------------------------------------
-- Ridership Profile Builder (scripts/build-model.js, aggregate + main)
-- ---------------------------------------------------------------------------

/-- One row of the hourly-ridership feed, after the row-level parsing the
builder performs: `station_complex_id` is `none` when the field is missing or
empty (JS-falsy), `ridership` is the value of `parseInt(row.ridership) || 0`,
`day`/`hour` come from the row timestamp, and `lat`/`lon` hold
`parseFloat(row.latitude/longitude)` with `0` standing for every JS-falsy
parse result (missing, `NaN`, or a literal zero — the code treats them
identically via `if (!lat || !lon) continue`). -/
structure RideRow where
  station_complex_id : Option String
  station_complex : String
  ridership : ℤ
  day : Fin 7
  hour : Fin 24
  lat : ℚ
  lon : ℚ

/-- The builder's per-station accumulators `rawSums`, `sumSq`, `counts`,
keyed by `(station_complex_id, day-of-week, hour)`. -/
structure AggState where
  rawSums : String → Fin 7 → Fin 24 → ℤ
  sumSq : String → Fin 7 → Fin 24 → ℤ
  counts : String → Fin 7 → Fin 24 → ℕ

/-- All accumulators start at zero (the `new Array(24).fill(0)` grids). -/
def initAggState : AggState :=
  ⟨fun _ _ _ => 0, fun _ _ _ => 0, fun _ _ _ => 0⟩

/-- Pointwise bump of one `(station, day, hour)` cell of an integer grid. -/
def bumpZ (f : String → Fin 7 → Fin 24 → ℤ) (id : String) (d : Fin 7)
    (h : Fin 24) (v : ℤ) : String → Fin 7 → Fin 24 → ℤ :=
  fun i dd hh => if i = id ∧ dd = d ∧ hh = h then f i dd hh + v else f i dd hh

/-- Pointwise bump of one `(station, day, hour)` cell of a count grid. -/
def bumpN (f : String → Fin 7 → Fin 24 → ℕ) (id : String) (d : Fin 7)
    (h : Fin 24) : String → Fin 7 → Fin 24 → ℕ :=
  fun i dd hh => if i = id ∧ dd = d ∧ hh = h then f i dd hh + 1 else f i dd hh

/-- The body of the builder's event loop: rows without an id and rows with
JS-falsy coordinates are skipped entirely; every other row adds its ridership
value, its square, and one observation to its exact bucket. -/
def stepRow (st : AggState) (row : RideRow) : AggState :=
  match row.station_complex_id with
  | none => st
  | some id =>
    if row.lat = 0 ∨ row.lon = 0 then st
    else
      { rawSums := bumpZ st.rawSums id row.day row.hour row.ridership
        sumSq := bumpZ st.sumSq id row.day row.hour (row.ridership * row.ridership)
        counts := bumpN st.counts id row.day row.hour }

/-- Accumulator state after consuming the whole event list. -/
def aggState (rows : List RideRow) : AggState :=
  rows.foldl stepRow initAggState

/-- Whether a row contributes to the `(id, d, h)` bucket: it survives both
skip guards and lands in that exact bucket. -/
def RideRow.inBucket (row : RideRow) (id : String) (d : Fin 7) (h : Fin 24) :
    Bool :=
  row.station_complex_id = some id ∧ row.lat ≠ 0 ∧ row.lon ≠ 0 ∧
    row.day = d ∧ row.hour = h

/-- The event values received by the `(id, d, h)` bucket, in feed order. -/
def bucketValues (rows : List RideRow) (id : String) (d : Fin 7) (h : Fin 24) :
    List ℤ :=
  (rows.filter (fun row => row.inBucket id d h)).map (fun row => row.ridership)

/-- The finalize loop's mean cell:
`counts > 0 → Math.round(rawSums / counts)`, else the cell keeps its 0. -/
def hourlyOf (rows : List RideRow) (id : String) (d : Fin 7) (h : Fin 24) : ℤ :=
  if 0 < (aggState rows).counts id d h then
    jsRound (((aggState rows).rawSums id d h : ℚ) /
      ((aggState rows).counts id d h : ℚ))
  else 0

/-- The finalize loop's stddev cell:
`counts > 0 → Math.round(Math.sqrt(Math.max(0, sumSq/c − mean * mean)))`
with the unrounded mean, else the cell keeps its 0. -/
def stddevOf (rows : List RideRow) (id : String) (d : Fin 7) (h : Fin 24) : ℕ :=
  if 0 < (aggState rows).counts id d h then
    roundSqrt (max 0 (((aggState rows).sumSq id d h : ℚ) /
        ((aggState rows).counts id d h : ℚ) -
      ((aggState rows).rawSums id d h : ℚ) /
          ((aggState rows).counts id d h : ℚ) *
        (((aggState rows).rawSums id d h : ℚ) /
          ((aggState rows).counts id d h : ℚ))))
  else 0

/-- The profile set the ridership builder writes: the two grids. -/
structure RidershipModel where
  hourly : String → Fin 7 → Fin 24 → ℤ
  stddev : String → Fin 7 → Fin 24 → ℕ

/-- `aggregate(rows)` packaged as the output model. -/
def buildRidershipModel (rows : List RideRow) : RidershipModel :=
  ⟨fun id d h => hourlyOf rows id d h, fun id d h => stddevOf rows id d h⟩

/-- The ridership builder's `main`: after fetching, a zero-row input hits
`console.error('No data returned. …'); process.exit(1)` — modelled as
`Except.error` — and only a non-empty input reaches `aggregate`. -/
def ridershipBuilderMain (rows : List RideRow) : Except String RidershipModel :=
  if rows.length = 0 then
    Except.error "No data returned. Check API availability."
  else
    Except.ok (buildRidershipModel rows)

/-- A two-event input whose single populated bucket receives the values 1
and 2 (station "A", Sunday, hour 0, valid coordinates). -/
def twoRowInput : List RideRow :=
  [⟨some "A", "Station A", 1, 0, 0, 1, 1⟩,
   ⟨some "A", "Station A", 2, 0, 0, 1, 1⟩]

-- ---------------------------------------------------------------------------
-- Crime Risk Builder (scripts/build-crime-model.js)
-- ---------------------------------------------------------------------------

/-- The four fixed time-of-day windows of the crime builder. -/
inductive TimeWindow
  | morning
  | afternoon
  | evening
  | latenight
  deriving DecidableEq

/-- The hour-to-window bucketing shared by `getTimeWindow` in both files. -/
def getTimeWindowOfHour (hour : ℕ) : TimeWindow :=
  if 6 ≤ hour ∧ hour < 12 then .morning
  else if 12 ≤ hour ∧ hour < 18 then .afternoon
  else if 18 ≤ hour ∧ hour < 22 then .evening
  else .latenight

/-- `getTimeWindow(hourStr)` of the crime builder: `none` models the `null`
returned when the hour substring fails to parse (`isNaN`). -/
def getTimeWindow (hour : Option ℕ) : Option TimeWindow :=
  match hour with
  | none => none
  | some h => some (getTimeWindowOfHour h)

/-- `recencyWeight(crimeDateStr)`: 0.5 for a missing date string, otherwise
exponential decay `exp(-0.693 * daysAgo / 30)` in the incident's age in
days.  The decay constant the source uses is the literal `0.693`. -/
noncomputable def recencyWeight (daysAgo : Option ℝ) : ℝ :=
  match daysAgo with
  | none => 0.5
  | some d => Real.exp (-0.693 * d / 30)

/-- JS `Math.atan2 y x` on finite inputs. -/
noncomputable def atan2 (y x : ℝ) : ℝ :=
  if 0 < x then Real.arctan (y / x)
  else if x < 0 then
    (if 0 ≤ y then Real.arctan (y / x) + Real.pi
     else Real.arctan (y / x) - Real.pi)
  else
    (if 0 < y then Real.pi / 2
     else if y < 0 then -(Real.pi / 2)
     else 0)

/-- The `a` intermediate of `haversineMeters` (spherical law of haversines):
`sin²(dLat/2) + cos(lat1)·cos(lat2)·sin²(dLon/2)` with degree inputs
converted to radians. -/
noncomputable def havA (lat1 lon1 lat2 lon2 : ℝ) : ℝ :=
  Real.sin ((lat2 - lat1) * Real.pi / 180 / 2)^2 +
    Real.cos (lat1 * Real.pi / 180) * Real.cos (lat2 * Real.pi / 180) *
      Real.sin ((lon2 - lon1) * Real.pi / 180 / 2)^2

/-- `haversineMeters(lat1, lon1, lat2, lon2)` from the crime builder:
`R * 2 * atan2(√a, √(1−a))` with `R = 6371000`. -/
noncomputable def haversineMeters (lat1 lon1 lat2 lon2 : ℝ) : ℝ :=
  6371000 * 2 * atan2 (Real.sqrt (havA lat1 lon1 lat2 lon2))
    (Real.sqrt (1 - havA lat1 lon1 lat2 lon2))

/-- A station record as the spatial join sees it (`station.lat/lon`). -/
structure SpatialStation where
  lat : ℝ
  lon : ℝ

/-- One incident row after field parsing: `lat`/`lon` hold
`parseFloat(crime.latitude/longitude)` with `0` standing for every JS-falsy
parse result (the code's `if (!cLat || !cLon) continue`), `hour` is the
parsed hour of `cmplnt_fr_tm` (`none` when unparsable), and `daysAgo` the
age derived from `cmplnt_fr_dt` (`none` when the date string is missing).
The `ofns_desc` category only feeds the `topCrimeType` tally, which no
claim touches, so it is not carried here. -/
structure CrimeRow where
  lat : ℝ
  lon : ℝ
  hour : Option ℕ
  daysAgo : Option ℝ

/-- The exact condition under which the inner loop of `computeStationRisk`
adds an incident's weight to a station's bucket: the incident survives the
coordinate guard and the time-window guard, is not discarded by the
`BOX = 0.004` bounding-box pre-filter, and lies within
`RADIUS_METERS = 400` haversine metres of the station. -/
def crimeMatches (station : SpatialStation) (crime : CrimeRow) : Prop :=
  ¬(crime.lat = 0 ∨ crime.lon = 0) ∧
  (getTimeWindow crime.hour).isSome ∧
  ¬(|station.lat - crime.lat| > 0.004 ∨ |station.lon - crime.lon| > 0.004) ∧
  haversineMeters station.lat station.lon crime.lat crime.lon ≤ 400

open Classical in
/-- The per-station, per-window weighted incident sum accumulated by
`computeStationRisk` (`stationRisk[id][window] += weight`). -/
noncomputable def stationWindowSum (station : SpatialStation)
    (crimes : List CrimeRow) (w : TimeWindow) : ℝ :=
  crimes.foldl
    (fun acc crime =>
      if crimeMatches station crime ∧ getTimeWindow crime.hour = some w then
        acc + recencyWeight crime.daysAgo
      else acc) 0

/-- The crime builder's `main`: a zero-row incident fetch hits
`console.error('No crime data returned. …'); process.exit(1)` — modelled as
`Except.error` — and only a non-empty input reaches `computeStationRisk`. -/
noncomputable def crimeBuilderMain (stations : List (String × SpatialStation))
    (crimes : List CrimeRow) :
    Except String (List (String × (TimeWindow → ℝ))) :=
  if crimes.length = 0 then
    Except.error "No crime data returned. Check API availability."
  else
    Except.ok (stations.map fun p => (p.1, fun w => stationWindowSum p.2 crimes w))

end EyesOnTheStreet

namespace EyesOnTheStreet

/-- C1: the classification function agrees with the spec's decision table on
every ridership `r ≥ 0`, crime risk `c ∈ [0,1]`, hour `h ∈ [0,24)`, and in
particular sends `(10, 0.9, 14)` to `caution` and `(10, 0.9, 23)` to `avoid`. -/
theorem computeSafetyLevel_eq_specClassify
    (r c : ℚ) (h : ℕ) (hr : 0 ≤ r) (hc0 : 0 ≤ c) (hc1 : c ≤ 1) (hh : h < 24) :
    computeSafetyLevel r c h = specClassify r c h ∧
      computeSafetyLevel 10 0.9 14 = .caution ∧
      computeSafetyLevel 10 0.9 23 = .avoid := by
  refine ⟨?_, by norm_num [computeSafetyLevel, isNightHour, isEveningHour],
    by norm_num [computeSafetyLevel, isNightHour, isEveningHour]⟩
  unfold computeSafetyLevel specClassify isNightHour isEveningHour
  split_ifs <;> first | rfl | omega

/-- Witness for C1 at `r = 10`, `c = 0.9`, `h = 14`. -/
theorem computeSafetyLevel_eq_specClassify_witness :
    computeSafetyLevel 10 0.9 14 = specClassify 10 0.9 14 ∧
      computeSafetyLevel 10 0.9 14 = .caution ∧
      computeSafetyLevel 10 0.9 23 = .avoid :=
  computeSafetyLevel_eq_specClassify 10 0.9 14 (by norm_num) (by norm_num)
    (by norm_num) (by norm_num)

/-- C2 counterexample: the "No Service" escalation step is not idempotent.
Starting from `safe`, one application gives `caution`, a second application
with the same disruption state gives `avoid`. -/
theorem applyDisruption_noService_not_idempotent :
    applyDisruption (some ⟨"No Service", []⟩) true .safe = .caution ∧
      applyDisruption (some ⟨"No Service", []⟩) true
          (applyDisruption (some ⟨"No Service", []⟩) true .safe) = .avoid ∧
      SafetyLevel.avoid ≠ SafetyLevel.caution := by
  refine ⟨?_, ?_, by simp⟩ <;> simp [applyDisruption]

/-- C2 amended: the escalation mapping is as described ("No Service" raises
one tier, "Significant Delays" raises `safe → caution` at night only, all
other states leave the tier alone), escalation never de-escalates, and a
second application with the same disruption state changes nothing except in
the one case of an active "No Service" disruption applied to `safe`, where
the second application raises `caution` to `avoid`. -/
theorem applyDisruption_escalation :
    (∀ (d : Option Disruption) (n : Bool) (l : SafetyLevel),
        l.rank ≤ (applyDisruption d n l).rank) ∧
    (∀ (dis : Disruption) (n : Bool), dis.effect = "No Service" →
        applyDisruption (some dis) n .safe = .caution ∧
        applyDisruption (some dis) n .caution = .avoid ∧
        applyDisruption (some dis) n .avoid = .avoid) ∧
    (∀ (dis : Disruption) (l : SafetyLevel), dis.effect = "Significant Delays" →
        applyDisruption (some dis) true .safe = .caution ∧
        (l ≠ .safe → applyDisruption (some dis) true l = l) ∧
        applyDisruption (some dis) false l = l) ∧
    (∀ (dis : Disruption) (n : Bool) (l : SafetyLevel),
        dis.effect ≠ "No Service" → dis.effect ≠ "Significant Delays" →
        applyDisruption (some dis) n l = l) ∧
    (∀ (n : Bool) (l : SafetyLevel), applyDisruption none n l = l) ∧
    (∀ (d : Option Disruption) (n : Bool) (l : SafetyLevel),
        (∀ dis : Disruption, d = some dis → dis.effect = "No Service" →
          l ≠ .safe) →
        applyDisruption d n (applyDisruption d n l) = applyDisruption d n l) := by
  refine ⟨?_, ?_, ?_, ?_, ?_, ?_⟩
  · rintro (_ | ⟨e, rs⟩) n l
    · simp [applyDisruption]
    · by_cases h1 : e = "No Service" <;>
        by_cases h2 : e = "Significant Delays" <;>
          cases n <;> cases l <;>
            simp [applyDisruption, h1, h2, SafetyLevel.rank]
  · rintro ⟨e, rs⟩ n h
    subst h
    refine ⟨?_, ?_, ?_⟩ <;> simp [applyDisruption]
  · rintro ⟨e, rs⟩ l h
    subst h
    refine ⟨by simp [applyDisruption], ?_, ?_⟩
    · intro hl
      cases l <;> simp_all [applyDisruption]
    · cases l <;> simp [applyDisruption]
  · rintro ⟨e, rs⟩ n l h1 h2
    cases l <;> simp [applyDisruption, h1, h2]
  · intro n l
    simp [applyDisruption]
  · rintro (_ | ⟨e, rs⟩) n l hexc
    · simp [applyDisruption]
    · by_cases h1 : e = "No Service"
      · have hls : l ≠ .safe := hexc ⟨e, rs⟩ rfl (by simp [h1])
        cases l <;> simp_all [applyDisruption]
      · by_cases h2 : e = "Significant Delays" <;>
          cases n <;> cases l <;> simp [applyDisruption, h1, h2]

/-- Witness for C2's amended theorem: a "Significant Delays" disruption at
night is idempotent on `caution`, and the mapping facts hold at a concrete
disruption record. -/
theorem applyDisruption_escalation_witness :
    applyDisruption (some ⟨"Significant Delays", []⟩) true
        (applyDisruption (some ⟨"Significant Delays", []⟩) true .caution) =
      applyDisruption (some ⟨"Significant Delays", []⟩) true .caution ∧
    applyDisruption (some ⟨"No Service", []⟩) false .caution = .avoid := by
  constructor
  · exact applyDisruption_escalation.2.2.2.2.2 (some ⟨"Significant Delays", []⟩)
      true .caution (by intro dis hd he; simp_all)
  · exact (applyDisruption_escalation.2.1 ⟨"No Service", []⟩ false rfl).2.1

/-- C4 counterexample: the code rounds twice, not once.  With baseline 5,
two arriving trains (expected 3, modulation 0.9) and snow, the code rounds
`5 × 0.9 = 4.5` up to `5` and then `5 × 0.7 = 3.5` up to `4`, while a single
final rounding of the composed product `5 × 0.9 × 0.7 = 3.15` gives `3`. -/
theorem presenceRidership_double_rounding :
    presenceRidership 5 2 (some ⟨false, true, false⟩) = 4 ∧
      jsRound ((5 : ℚ) * min (trainModulation 5 2) 2.0 *
        weatherModifier (some ⟨false, true, false⟩)) = 3 ∧
      (4 : ℤ) ≠ 3 := by
  refine ⟨?_, ?_, by norm_num⟩ <;>
    norm_num [presenceRidership, trainModulatedRidership, trainModulation,
      expectedTrains, weatherModifier, jsRound]

/-- C4 amended: the weather factor is 0.70 for snow, 0.80 for rain, 0.85 for
extreme conditions, 1.0 otherwise and when no weather data is available; it
multiplies the train-modulated ridership after train modulation, but the
result is rounded a second time — the train-modulated value is already an
integer, and the weather product is rounded again (two roundings, not one
final rounding of the composed product).  A train-modulated value of 1000
under snow yields ridership 700. -/
theorem weather_modulation_spec :
    (∀ (b : ℤ) (t : ℕ) (w : Option Weather),
        presenceRidership b t w =
          jsRound ((trainModulatedRidership b t : ℚ) * weatherModifier w)) ∧
    weatherModifier none = 1 ∧
    (∀ w : Weather, w.isSnow = true → weatherModifier (some w) = 0.70) ∧
    (∀ w : Weather, w.isSnow = false → w.isRain = true →
        weatherModifier (some w) = 0.80) ∧
    (∀ w : Weather, w.isSnow = false → w.isRain = false → w.isExtreme = true →
        weatherModifier (some w) = 0.85) ∧
    (∀ w : Weather, w.isSnow = false → w.isRain = false → w.isExtreme = false →
        weatherModifier (some w) = 1) ∧
    (∀ (t : ℕ) (w : Weather), w.isSnow = true →
        trainModulatedRidership 1000 t = 1000 →
        presenceRidership 1000 t (some w) = 700) := by
  refine ⟨fun b t w => rfl, by norm_num [weatherModifier], ?_, ?_, ?_, ?_, ?_⟩
  · intro w h; simp [weatherModifier, h]
  · intro w h1 h2; simp [weatherModifier, h1, h2]
  · intro w h1 h2 h3; simp [weatherModifier, h1, h2, h3]
  · intro w h1 h2 h3; norm_num [weatherModifier, h1, h2, h3]
  · intro t w hs hmod
    show jsRound ((trainModulatedRidership 1000 t : ℚ) * weatherModifier (some w)) = 700
    rw [hmod, weatherModifier]
    simp only [hs, if_true]
    norm_num [jsRound, Int.floor_eq_iff]

/-- Witness for C4's amended theorem at baseline 1000, no trains, snow. -/
theorem weather_modulation_spec_witness :
    presenceRidership 1000 0 (some ⟨false, true, false⟩) = 700 :=
  weather_modulation_spec.2.2.2.2.2.2 0 ⟨false, true, false⟩ rfl
    (by norm_num [trainModulatedRidership])

/-- C5: the anomaly flag agrees with the spec's rule for every ridership,
baseline and stddev; `(ridership, baseline, stddev) = (125, 100, 10)` is
flagged (z = 2.5) and `(60, 40, s)` is not flagged for any stddev `s`. -/
theorem isAnomaly_eq_specAnomaly :
    (∀ r b s : ℚ, isAnomaly r b s ↔ specAnomaly r b s) ∧
      isAnomaly 125 100 10 ∧
      (∀ s : ℚ, ¬ isAnomaly 60 40 s) := by
  refine ⟨?_, ?_, ?_⟩
  · intro r b s
    unfold isAnomaly specAnomaly anomalyScore
    by_cases hmain : 0 < s ∧ 50 < b
    · simp [hmain]
    · simp only [hmain, if_false]
      by_cases hb : 50 < b
      · have hb0 : 0 < b := lt_trans (by norm_num) hb
        rw [if_pos hb0, abs_div, abs_of_pos hb0]
      · simp [hb]
  · unfold isAnomaly
    rw [if_pos (by norm_num)]
    rw [show ((125 : ℚ) - 100) / 10 = 5/2 by norm_num]
    rw [abs_of_pos (by norm_num)]
    norm_num
  · intro s
    unfold isAnomaly
    by_cases hmain : 0 < s ∧ (50 : ℚ) < 40
    · exact absurd hmain.2 (by norm_num)
    · simp only [hmain, if_false]
      rintro ⟨-, h⟩
      exact absurd h (by norm_num)

/-- Witness for C5 at `(ridership, baseline, stddev) = (125, 100, 10)`. -/
theorem isAnomaly_eq_specAnomaly_witness :
    isAnomaly 125 100 10 ↔ specAnomaly 125 100 10 :=
  isAnomaly_eq_specAnomaly.1 125 100 10

/-- Evaluation lemma: baseline 1000 sits in the expected-5 tier, so 16
arriving trains give modulation 1.66 and ridership 1660. -/
lemma trainMod_1000_16_eval : trainModulatedRidership 1000 16 = 1660 := by
  unfold trainModulatedRidership trainModulation expectedTrains
  norm_num
  norm_num [jsRound]

/-- C6 counterexample: with baseline 1000 the expected-train tier is 5, so 16
arriving trains give modulation 1.66 (below the 2.0 cap) and ridership 1660,
not the claimed capped 2000. -/
theorem trainModulatedRidership_1000_16 :
    trainModulatedRidership 1000 16 = 1660 ∧ (1660 : ℤ) ≠ 2000 :=
  ⟨trainMod_1000_16_eval, by norm_num⟩

/-- C6 amended: for baseline > 0 and actual train count > 0 the modulated
ridership is `round(baseline * min(0.7 + 0.3 * actual/expected, 2.0))` with
expected = 12/8/5/3 at the tier thresholds 5000/2000/500; actual = 0 or
baseline = 0 passes the baseline through.  With expected = 8 (baseline in
(2000, 5000]), actual = 8 gives modulation 1.0 and ridership = baseline;
actual = 16 with baseline = 1000 falls in the expected-5 tier and gives
ridership 1660 (the 2.0 cap is not reached). -/
theorem trainModulation_spec :
    (∀ (b : ℤ) (t : ℕ), 0 < b → 0 < t →
        trainModulatedRidership b t =
          jsRound ((b : ℚ) * min (0.7 + 0.3 * ((t : ℚ) /
            (if 5000 < b then 12 else if 2000 < b then 8
              else if 500 < b then 5 else 3))) 2.0)) ∧
    (∀ b : ℤ, trainModulatedRidership b 0 = b) ∧
    (∀ t : ℕ, trainModulatedRidership 0 t = 0) ∧
    (∀ b : ℤ, 2000 < b → b ≤ 5000 → trainModulatedRidership b 8 = b) ∧
    trainModulatedRidership 1000 16 = 1660 := by
  refine ⟨?_, ?_, ?_, ?_, ?_⟩
  · intro b t hb ht
    unfold trainModulatedRidership trainModulation expectedTrains
    rw [if_pos ⟨ht, hb⟩]
  · intro b
    unfold trainModulatedRidership
    simp
  · intro t
    unfold trainModulatedRidership
    simp
  · intro b hb1 hb2
    unfold trainModulatedRidership trainModulation expectedTrains
    rw [if_pos ⟨by norm_num, by omega⟩, if_neg (by omega), if_pos hb1]
    rw [show ((0.7 : ℚ) + 0.3 * ((8 : ℕ) / 8)) = 1 by norm_num]
    rw [min_eq_left (by norm_num), mul_one, jsRound, Int.floor_eq_iff]
    push_cast
    constructor <;> linarith
  · exact trainMod_1000_16_eval

/-- Witness for C6's amended theorem at baseline 3000, 8 arriving trains. -/
theorem trainModulation_spec_witness :
    trainModulatedRidership 3000 8 = 3000 :=
  trainModulation_spec.2.2.2.1 3000 (by norm_num) (by norm_num)

/-- One step of the event loop bumps the count grid at exactly the row's
bucket, and only when the row survives the skip guards. -/
lemma stepRow_counts (st : AggState) (row : RideRow) (id : String) (d : Fin 7)
    (h : Fin 24) :
    (stepRow st row).counts id d h =
      st.counts id d h + (if row.inBucket id d h then 1 else 0) := by
  rcases row with ⟨rid, name, v, rd, rh, rlat, rlon⟩
  cases rid with
  | none => simp [stepRow, RideRow.inBucket]
  | some rid =>
    by_cases hco : rlat = 0 ∨ rlon = 0
    · have hb : RideRow.inBucket ⟨some rid, name, v, rd, rh, rlat, rlon⟩ id d h
          = false := by
        simp only [RideRow.inBucket, decide_eq_false_iff_not]
        tauto
      simp [stepRow, hco, hb]
    · have hstep : stepRow st ⟨some rid, name, v, rd, rh, rlat, rlon⟩ =
          { rawSums := bumpZ st.rawSums rid rd rh v
            sumSq := bumpZ st.sumSq rid rd rh (v * v)
            counts := bumpN st.counts rid rd rh } := by
        simp [stepRow, hco]
      rw [hstep]
      push_neg at hco
      simp only [bumpN, RideRow.inBucket]
      by_cases h1 : id = rid <;> by_cases h2 : d = rd <;> by_cases h3 : h = rh <;>
        simp_all [eq_comm]

/-- One step of the event loop bumps the raw-sum grid by the row's ridership
value at exactly the row's bucket. -/
lemma stepRow_rawSums (st : AggState) (row : RideRow) (id : String) (d : Fin 7)
    (h : Fin 24) :
    (stepRow st row).rawSums id d h =
      st.rawSums id d h + (if row.inBucket id d h then row.ridership else 0) := by
  rcases row with ⟨rid, name, v, rd, rh, rlat, rlon⟩
  cases rid with
  | none => simp [stepRow, RideRow.inBucket]
  | some rid =>
    by_cases hco : rlat = 0 ∨ rlon = 0
    · have hb : RideRow.inBucket ⟨some rid, name, v, rd, rh, rlat, rlon⟩ id d h
          = false := by
        simp only [RideRow.inBucket, decide_eq_false_iff_not]
        tauto
      simp [stepRow, hco, hb]
    · have hstep : stepRow st ⟨some rid, name, v, rd, rh, rlat, rlon⟩ =
          { rawSums := bumpZ st.rawSums rid rd rh v
            sumSq := bumpZ st.sumSq rid rd rh (v * v)
            counts := bumpN st.counts rid rd rh } := by
        simp [stepRow, hco]
      rw [hstep]
      push_neg at hco
      simp only [bumpZ, RideRow.inBucket]
      by_cases h1 : id = rid <;> by_cases h2 : d = rd <;> by_cases h3 : h = rh <;>
        simp_all [eq_comm]

/-- One step of the event loop bumps the sum-of-squares grid by the squared
ridership value at exactly the row's bucket. -/
lemma stepRow_sumSq (st : AggState) (row : RideRow) (id : String) (d : Fin 7)
    (h : Fin 24) :
    (stepRow st row).sumSq id d h =
      st.sumSq id d h +
        (if row.inBucket id d h then row.ridership * row.ridership else 0) := by
  rcases row with ⟨rid, name, v, rd, rh, rlat, rlon⟩
  cases rid with
  | none => simp [stepRow, RideRow.inBucket]
  | some rid =>
    by_cases hco : rlat = 0 ∨ rlon = 0
    · have hb : RideRow.inBucket ⟨some rid, name, v, rd, rh, rlat, rlon⟩ id d h
          = false := by
        simp only [RideRow.inBucket, decide_eq_false_iff_not]
        tauto
      simp [stepRow, hco, hb]
    · have hstep : stepRow st ⟨some rid, name, v, rd, rh, rlat, rlon⟩ =
          { rawSums := bumpZ st.rawSums rid rd rh v
            sumSq := bumpZ st.sumSq rid rd rh (v * v)
            counts := bumpN st.counts rid rd rh } := by
        simp [stepRow, hco]
      rw [hstep]
      push_neg at hco
      simp only [bumpZ, RideRow.inBucket]
      by_cases h1 : id = rid <;> by_cases h2 : d = rd <;> by_cases h3 : h = rh <;>
        simp_all [eq_comm]

/-- The count accumulator of the finished fold counts the bucket's events. -/
lemma counts_eq (rows : List RideRow) (id : String) (d : Fin 7) (h : Fin 24) :
    (aggState rows).counts id d h = (bucketValues rows id d h).length := by
  suffices hgen : ∀ st : AggState, (rows.foldl stepRow st).counts id d h =
      st.counts id d h + (bucketValues rows id d h).length by
    rw [aggState, hgen initAggState]
    simp [initAggState]
  induction rows with
  | nil => intro st; simp [bucketValues]
  | cons row rest ih =>
    intro st
    rw [List.foldl_cons, ih, stepRow_counts]
    by_cases hb : row.inBucket id d h <;>
      simp [bucketValues, List.filter_cons, hb] <;> omega

/-- The raw-sum accumulator of the finished fold sums the bucket's events. -/
lemma rawSums_eq (rows : List RideRow) (id : String) (d : Fin 7) (h : Fin 24) :
    (aggState rows).rawSums id d h = (bucketValues rows id d h).sum := by
  suffices hgen : ∀ st : AggState, (rows.foldl stepRow st).rawSums id d h =
      st.rawSums id d h + (bucketValues rows id d h).sum by
    rw [aggState, hgen initAggState]
    simp [initAggState]
  induction rows with
  | nil => intro st; simp [bucketValues]
  | cons row rest ih =>
    intro st
    rw [List.foldl_cons, ih, stepRow_rawSums]
    by_cases hb : row.inBucket id d h <;>
      simp [bucketValues, List.filter_cons, hb] <;> ring

/-- The sum-of-squares accumulator of the finished fold sums the squares of
the bucket's events. -/
lemma sumSq_eq (rows : List RideRow) (id : String) (d : Fin 7) (h : Fin 24) :
    (aggState rows).sumSq id d h =
      ((bucketValues rows id d h).map (fun v => v * v)).sum := by
  suffices hgen : ∀ st : AggState, (rows.foldl stepRow st).sumSq id d h =
      st.sumSq id d h + ((bucketValues rows id d h).map (fun v => v * v)).sum by
    rw [aggState, hgen initAggState]
    simp [initAggState]
  induction rows with
  | nil => intro st; simp [bucketValues]
  | cons row rest ih =>
    intro st
    rw [List.foldl_cons, ih, stepRow_sumSq]
    by_cases hb : row.inBucket id d h <;>
      simp [bucketValues, List.filter_cons, hb] <;> ring

/-- `roundSqrt` really is `Math.round (Math.sqrt v)`: for `v ≥ 0` it equals
the half-up rounding of the exact real square root. -/
lemma roundSqrt_eq (v : ℚ) (hv : 0 ≤ v) :
    (roundSqrt v : ℤ) = ⌊Real.sqrt (v : ℝ) + 1/2⌋ := by
  have hfl : (0 : ℤ) ≤ ⌊v⌋ := Int.floor_nonneg.mpr hv
  have hmax : max 0 ⌊v⌋ = ⌊v⌋ := max_eq_right hfl
  set n : ℕ := Nat.sqrt (max 0 ⌊v⌋).toNat with hn
  have hmZ : ((max 0 ⌊v⌋).toNat : ℤ) = ⌊v⌋ := by
    rw [hmax, Int.toNat_of_nonneg hfl]
  have hnsq : ((n : ℚ)) * n ≤ v := by
    have h1 : (n : ℤ) * n ≤ ⌊v⌋ := by
      rw [← hmZ]
      exact_mod_cast Nat.sqrt_le (max 0 ⌊v⌋).toNat
    calc ((n : ℚ)) * n = (((n : ℤ) * n : ℤ) : ℚ) := by push_cast; ring
    _ ≤ (⌊v⌋ : ℚ) := by exact_mod_cast h1
    _ ≤ v := Int.floor_le v
  have hvsq : v < ((n : ℚ) + 1) * ((n : ℚ) + 1) := by
    have h1 : ⌊v⌋ < ((n : ℤ) + 1) * ((n : ℤ) + 1) := by
      rw [← hmZ]
      exact_mod_cast Nat.lt_succ_sqrt (max 0 ⌊v⌋).toNat
    have h2 : ⌊v⌋ + 1 ≤ ((n : ℤ) + 1) * ((n : ℤ) + 1) := h1
    calc v < (⌊v⌋ : ℚ) + 1 := Int.lt_floor_add_one v
    _ ≤ (((((n : ℤ) + 1) * ((n : ℤ) + 1)) : ℤ) : ℚ) := by exact_mod_cast h2
    _ = ((n : ℚ) + 1) * ((n : ℚ) + 1) := by push_cast; ring
  have hvR : (0 : ℝ) ≤ (v : ℝ) := by exact_mod_cast hv
  have hlow : (n : ℝ) ≤ Real.sqrt (v : ℝ) := by
    rw [Real.le_sqrt (by positivity) hvR]
    have : ((n : ℝ)) * n ≤ (v : ℝ) := by exact_mod_cast hnsq
    nlinarith
  have hup : Real.sqrt (v : ℝ) < (n : ℝ) + 1 := by
    rw [Real.sqrt_lt' (by positivity)]
    have : (v : ℝ) < ((n : ℝ) + 1) * ((n : ℝ) + 1) := by exact_mod_cast hvsq
    nlinarith
  unfold roundSqrt
  rw [← hn]
  by_cases hc : ((n : ℚ) + 1/2)^2 ≤ v
  · rw [if_pos hc, eq_comm, Int.floor_eq_iff]
    have hcR : ((n : ℝ) + 1/2)^2 ≤ (v : ℝ) := by
      have h0 : ((((n : ℚ) + 1/2)^2 : ℚ) : ℝ) ≤ ((v : ℚ) : ℝ) := by
        exact_mod_cast hc
      push_cast at h0
      exact h0
    have hmid : (n : ℝ) + 1/2 ≤ Real.sqrt (v : ℝ) := by
      rw [Real.le_sqrt (by positivity) hvR]
      exact hcR
    constructor
    · push_cast
      linarith
    · push_cast
      linarith
  · rw [if_neg hc, eq_comm, Int.floor_eq_iff]
    push_neg at hc
    have hcR : (v : ℝ) < ((n : ℝ) + 1/2)^2 := by
      have h0 : ((v : ℚ) : ℝ) < ((((n : ℚ) + 1/2)^2 : ℚ) : ℝ) := by
        exact_mod_cast hc
      push_cast at h0
      exact h0
    have hmid : Real.sqrt (v : ℝ) < (n : ℝ) + 1/2 := by
      rw [Real.sqrt_lt' (by positivity)]
      exact hcR
    constructor
    · push_cast
      linarith
    · push_cast
      linarith

/-- The mean cell as a function of the bucket's event list. -/
lemma hourlyOf_eq (rows : List RideRow) (id : String) (d : Fin 7) (h : Fin 24) :
    hourlyOf rows id d h =
      if 0 < (bucketValues rows id d h).length then
        jsRound (((bucketValues rows id d h).sum : ℚ) /
          ((bucketValues rows id d h).length : ℚ))
      else 0 := by
  unfold hourlyOf
  rw [counts_eq, rawSums_eq]

/-- The stddev cell as a function of the bucket's event list. -/
lemma stddevOf_eq (rows : List RideRow) (id : String) (d : Fin 7) (h : Fin 24) :
    stddevOf rows id d h =
      if 0 < (bucketValues rows id d h).length then
        roundSqrt (max 0
          (((((bucketValues rows id d h).map (fun x => x * x)).sum : ℤ) : ℚ) /
              ((bucketValues rows id d h).length : ℚ) -
            ((bucketValues rows id d h).sum : ℚ) /
                ((bucketValues rows id d h).length : ℚ) *
              (((bucketValues rows id d h).sum : ℚ) /
                ((bucketValues rows id d h).length : ℚ))))
      else 0 := by
  unfold stddevOf
  rw [counts_eq, rawSums_eq, sumSq_eq]

/-- The bucket of `twoRowInput` at ("A", 0, 0) is exactly `[1, 2]`. -/
lemma twoRowInput_bucket : bucketValues twoRowInput "A" 0 0 = [1, 2] := by
  simp [twoRowInput, bucketValues, List.filter_cons, RideRow.inBucket]

/-- C7 counterexample: the builder stores rounded integer cells, not the
exact mean and stddev.  A bucket receiving the events `[1, 2]` has exact
mean `3/2` and exact stddev `√(1/4) = 1/2`, but the produced cells are
`round(3/2) = 2` and `round(1/2) = 1`. -/
theorem aggregate_cells_rounded :
    bucketValues twoRowInput "A" 0 0 = [1, 2] ∧
      hourlyOf twoRowInput "A" 0 0 = 2 ∧ ((2 : ℚ) ≠ (1 + 2) / 2) ∧
      stddevOf twoRowInput "A" 0 0 = 1 ∧
      ((1 : ℝ) ≠ Real.sqrt (((1^2 + 2^2) : ℝ) / 2 - (((1 + 2) : ℝ) / 2)^2)) := by
  refine ⟨twoRowInput_bucket, ?_, by norm_num, ?_, ?_⟩
  · rw [hourlyOf_eq, twoRowInput_bucket]
    norm_num [jsRound]
  · rw [stddevOf_eq, twoRowInput_bucket]
    norm_num
    norm_num [roundSqrt]
  · rw [show (((1^2 + 2^2) : ℝ) / 2 - (((1 + 2) : ℝ) / 2)^2) = (1/2)^2 by norm_num]
    rw [Real.sqrt_sq (by norm_num : (0:ℝ) ≤ 1/2)]
    norm_num

/-- C7 amended: a bucket that received events stores
`hourly = round(sum/count)` and `stddev = round(√(max 0 (sumSq/count −
mean²)))` with the unrounded mean (population variance); a bucket with zero
events keeps its 0/0 cells; the mean cell is non-negative whenever the
bucket's event values are, and the stddev cell is always non-negative. -/
theorem aggregate_bucket_spec :
    ∀ (rows : List RideRow) (id : String) (d : Fin 7) (h : Fin 24),
      (0 < (bucketValues rows id d h).length →
        hourlyOf rows id d h =
          jsRound (((bucketValues rows id d h).sum : ℚ) /
            ((bucketValues rows id d h).length : ℚ)) ∧
        (stddevOf rows id d h : ℤ) =
          ⌊Real.sqrt (((max 0
              ((((((bucketValues rows id d h).map (fun x => x * x)).sum : ℤ) : ℚ) /
                  ((bucketValues rows id d h).length : ℚ) -
                ((bucketValues rows id d h).sum : ℚ) /
                    ((bucketValues rows id d h).length : ℚ) *
                  (((bucketValues rows id d h).sum : ℚ) /
                    ((bucketValues rows id d h).length : ℚ)))) : ℚ) : ℝ)) +
            1/2⌋) ∧
      ((bucketValues rows id d h).length = 0 →
        hourlyOf rows id d h = 0 ∧ stddevOf rows id d h = 0) ∧
      ((∀ x ∈ bucketValues rows id d h, 0 ≤ x) → 0 ≤ hourlyOf rows id d h) ∧
      (0 : ℤ) ≤ (stddevOf rows id d h : ℤ) := by
  intro rows id d h
  refine ⟨?_, ?_, ?_, Int.natCast_nonneg _⟩
  · intro hpos
    constructor
    · rw [hourlyOf_eq, if_pos hpos]
    · rw [stddevOf_eq, if_pos hpos, roundSqrt_eq _ (le_max_left _ _)]
  · intro hzero
    refine ⟨?_, ?_⟩
    · rw [hourlyOf_eq, if_neg (by omega)]
    · rw [stddevOf_eq, if_neg (by omega)]
  · intro hnn
    rw [hourlyOf_eq]
    by_cases hpos : 0 < (bucketValues rows id d h).length
    · rw [if_pos hpos]
      have hsum : (0 : ℤ) ≤ (bucketValues rows id d h).sum :=
        List.sum_nonneg hnn
      have hq : (0 : ℚ) ≤ ((bucketValues rows id d h).sum : ℚ) /
          ((bucketValues rows id d h).length : ℚ) := by
        apply div_nonneg
        · exact_mod_cast hsum
        · positivity
      unfold jsRound
      exact Int.floor_nonneg.mpr (by linarith)
    · rw [if_neg hpos]

/-- Witness for C7's amended theorem: the populated bucket of `twoRowInput`
stores the rounded mean of its event list. -/
theorem aggregate_bucket_spec_witness :
    hourlyOf twoRowInput "A" 0 0 =
      jsRound (((bucketValues twoRowInput "A" 0 0).sum : ℚ) /
        ((bucketValues twoRowInput "A" 0 0).length : ℚ)) :=
  ((aggregate_bucket_spec twoRowInput "A" 0 0).1
    (by rw [twoRowInput_bucket]; norm_num)).1

/-- C3 counterexample: the Ridership Profile Builder does not degrade
gracefully on an empty input — its `main` takes the
`console.error(…); process.exit(1)` path, modelled as `Except.error`, rather
than emitting an empty profile set. -/
theorem ridershipBuilderMain_empty_errors :
    ridershipBuilderMain [] =
      Except.error "No data returned. Check API availability." := rfl

/-- C3 amended: on an empty input the two offline builders behave the same
way — both abort with a hard failure.  The crime-builder half of the
original claim holds; only a non-empty input reaches aggregation. -/
theorem builders_empty_input :
    (∃ msg, ridershipBuilderMain [] = Except.error msg) ∧
    (∀ stations, ∃ msg, crimeBuilderMain stations [] = Except.error msg) ∧
    (∀ rows : List RideRow, rows ≠ [] →
      ridershipBuilderMain rows = Except.ok (buildRidershipModel rows)) ∧
    (∀ (stations : List (String × SpatialStation)) (crimes : List CrimeRow),
      crimes ≠ [] → ∃ out, crimeBuilderMain stations crimes = Except.ok out) := by
  refine ⟨⟨_, rfl⟩, fun stations => ⟨_, rfl⟩, ?_, ?_⟩
  · intro rows hne
    unfold ridershipBuilderMain
    rw [if_neg (by simpa using hne)]
  · intro stations crimes hne
    unfold crimeBuilderMain
    rw [if_neg (by simpa using hne)]
    exact ⟨_, rfl⟩

/-- Witness for C3's amended theorem on a one-row input. -/
theorem builders_empty_input_witness :
    ridershipBuilderMain twoRowInput =
      Except.ok (buildRidershipModel twoRowInput) :=
  builders_empty_input.2.2.1 twoRowInput (by simp [twoRowInput])

/-- `exp (−ln 2) = 1/2`, the value the half-life property would require. -/
lemma exp_neg_log_two : Real.exp (-Real.log 2) = 1/2 := by
  rw [Real.exp_neg, Real.exp_log (by norm_num : (0:ℝ) < 2)]
  norm_num

/-- The 30-day weight the code computes is `exp (−0.693)`. -/
lemma recencyWeight_thirty : recencyWeight (some 30) = Real.exp (-(0.693 : ℝ)) := by
  simp only [recencyWeight]
  norm_num

/-- C8 counterexample: the source decays with the literal constant `0.693`,
not `ln 2 ≈ 0.6931472`, so the weight at the stated 30-day half-life is
`exp (−0.693)`, which is not exactly `0.5`. -/
theorem recencyWeight_thirty_ne_half : recencyWeight (some 30) ≠ 1/2 := by
  rw [recencyWeight_thirty]
  intro h
  have h2 : (-(0.693 : ℝ)) = -Real.log 2 :=
    Real.exp_eq_exp.mp (by rw [h, exp_neg_log_two])
  have h3 : Real.log 2 = 0.693 := by linarith
  have h4 : (0.6931471803 : ℝ) < Real.log 2 := Real.log_two_gt_d9
  rw [h3] at h4
  norm_num at h4

/-- C8 amended: for incidents with a valid date the weight is
`exp (−0.693 · days_ago / 30)` with the literal decay constant `0.693`
(an approximation of `ln 2`): it is exactly 1.0 at age 0, strictly
decreasing in the age, strictly positive at every age, and at 30 days it is
`exp (−0.693)`, slightly above 0.5 rather than exactly 0.5. -/
theorem recencyWeight_spec :
    recencyWeight (some 0) = 1 ∧
    (∀ d1 d2 : ℝ, d1 < d2 → recencyWeight (some d2) < recencyWeight (some d1)) ∧
    (∀ d : ℝ, 0 < recencyWeight (some d)) ∧
    1/2 < recencyWeight (some 30) := by
  refine ⟨?_, ?_, ?_, ?_⟩
  · simp only [recencyWeight]
    norm_num
  · intro d1 d2 hlt
    simp only [recencyWeight]
    apply Real.exp_lt_exp.mpr
    nlinarith
  · intro d
    simp only [recencyWeight]
    exact Real.exp_pos _
  · rw [recencyWeight_thirty, ← exp_neg_log_two]
    apply Real.exp_lt_exp.mpr
    have h4 : (0.6931471803 : ℝ) < Real.log 2 := Real.log_two_gt_d9
    linarith

/-- Witness for C8's amended theorem: the weight at 31 days is below the
weight at 30 days. -/
theorem recencyWeight_spec_witness :
    recencyWeight (some 31) < recencyWeight (some 30) :=
  recencyWeight_spec.2.1 30 31 (by norm_num)

/-- `arctan x ≤ x` on the non-negative reals. -/
lemma arctan_le_self {x : ℝ} (hx : 0 ≤ x) : Real.arctan x ≤ x := by
  rcases eq_or_lt_of_le hx with h | h
  · rw [← h, Real.arctan_zero]
  · have h1 : 0 < Real.arctan x := by
      have h0 := Real.arctan_strictMono h
      rwa [Real.arctan_zero] at h0
    have h2 : Real.arctan x < Real.pi / 2 := Real.arctan_lt_pi_div_two x
    have h3 : Real.arctan x < Real.tan (Real.arctan x) := Real.lt_tan h1 h2
    rw [Real.tan_arctan] at h3
    linarith

/-- The haversine distance from a point to itself is zero. -/
lemma haversineMeters_self (lat lon : ℝ) : haversineMeters lat lon lat lon = 0 := by
  unfold haversineMeters havA
  rw [sub_self lat, sub_self lon]
  norm_num [Real.sin_zero, Real.sqrt_zero, Real.sqrt_one, atan2,
    Real.arctan_zero]

/-- C9: for every incident that survives the coordinate and time-window
guards, an incident at the exact coordinates of a station is always included
in that station's bucket (the bounding box passes and the distance is 0),
and an incident farther than the 400 m radius is always excluded. -/
theorem spatial_join_inclusion :
    ∀ (s : SpatialStation) (c : CrimeRow),
      c.lat ≠ 0 → c.lon ≠ 0 → (getTimeWindow c.hour).isSome →
      ((s.lat = c.lat ∧ s.lon = c.lon) → crimeMatches s c) ∧
      (400 < haversineMeters s.lat s.lon c.lat c.lon → ¬ crimeMatches s c) := by
  intro s c hlat hlon hw
  constructor
  · rintro ⟨h1, h2⟩
    refine ⟨by tauto, hw, ?_, ?_⟩
    · rw [h1, h2]
      simp only [sub_self, abs_zero]
      push_neg
      norm_num
    · rw [h1, h2, haversineMeters_self]
      norm_num
  · intro hfar hm
    exact absurd hm.2.2.2 (by linarith)

/-- Witness for C9 at a station and an incident at identical coordinates. -/
theorem spatial_join_inclusion_witness :
    crimeMatches ⟨40.7, -74⟩ ⟨40.7, -74, some 14, some 1⟩ :=
  (spatial_join_inclusion ⟨40.7, -74⟩ ⟨40.7, -74, some 14, some 1⟩
    (by norm_num) (by norm_num) (by rfl)).1 ⟨rfl, rfl⟩

set_option maxHeartbeats 1000000 in
/-- A pure east-west pair at latitude 40.7°N separated by 0.0041° of
longitude is less than 400 haversine metres apart (about 347 m). -/
lemma haversine_040041_le :
    haversineMeters 40.7 (-74) 40.7 (-74.0041) ≤ 400 := by
  have hπl : (3.141592 : ℝ) < Real.pi := Real.pi_gt_d6
  have hπu : Real.pi < 3.141593 := Real.pi_lt_d6
  unfold haversineMeters havA
  rw [show ((40.7 : ℝ) - 40.7) = 0 by norm_num]
  rw [show (0 : ℝ) * Real.pi / 180 / 2 = 0 by ring]
  rw [Real.sin_zero]
  set c : ℝ := Real.cos (40.7 * Real.pi / 180) with hc
  set s : ℝ := Real.sin (((-74.0041 : ℝ) - -74) * Real.pi / 180 / 2) with hs
  rw [show (0 : ℝ)^2 + c * c * s^2 = (c * s)^2 by ring]
  -- numeric bounds on the latitude angle
  have hφlb : (0.7103488 : ℝ) ≤ 40.7 * Real.pi / 180 := by nlinarith
  have hφub : 40.7 * Real.pi / 180 ≤ 0.7103492 := by nlinarith
  have hc0 : 0 ≤ c := by
    rw [hc]
    apply Real.cos_nonneg_of_mem_Icc
    constructor
    · nlinarith
    · nlinarith
  have hcle : c ≤ 0.761 := by
    rw [hc]
    have hb := Real.cos_bound (x := 40.7 * Real.pi / 180)
      (by rw [abs_of_nonneg (by nlinarith)]; nlinarith)
    have h1 := (abs_le.mp hb).2
    rw [abs_of_nonneg (by nlinarith : (0:ℝ) ≤ 40.7 * Real.pi / 180)] at h1
    have hφ2 : (0.5045953 : ℝ) ≤ (40.7 * Real.pi / 180)^2 := by nlinarith
    have hφ2u : (40.7 * Real.pi / 180)^2 ≤ 0.5045960 := by nlinarith
    have hφ4 : (40.7 * Real.pi / 180)^4 ≤ 0.2546172 := by
      nlinarith [sq_nonneg ((0.5045960 : ℝ) - (40.7 * Real.pi / 180)^2)]
    nlinarith
  -- numeric bound on the longitude half-angle sine
  have hsle : |s| ≤ 0.0000357793 := by
    rw [hs]
    refine le_trans Real.abs_sin_le_abs ?_
    rw [show (((-74.0041 : ℝ) - -74) * Real.pi / 180 / 2) =
      -(0.0041 * Real.pi / 360) by ring_nf]
    rw [abs_neg, abs_of_nonneg (by nlinarith)]
    nlinarith
  have hcs_abs : |c * s| ≤ 0.0000272281 := by
    rw [abs_mul, abs_of_nonneg hc0]
    calc c * |s| ≤ 0.761 * 0.0000357793 :=
      mul_le_mul hcle hsle (abs_nonneg _) (by norm_num)
    _ ≤ 0.0000272281 := by norm_num
  have hcssq : (c * s)^2 ≤ 0.0000000008 := by
    have h0 : (c * s)^2 = |c * s|^2 := (sq_abs _).symm
    rw [h0]
    nlinarith [abs_nonneg (c * s)]
  -- the two square roots
  have hsq_a : Real.sqrt ((c * s)^2) ≤ 0.0000272281 := by
    rw [Real.sqrt_sq_eq_abs]
    exact hcs_abs
  have h1ma : (0.998001 : ℝ) ≤ 1 - (c * s)^2 := by nlinarith
  have hsq_1ma : (0.999 : ℝ) ≤ Real.sqrt (1 - (c * s)^2) := by
    rw [Real.le_sqrt (by norm_num) (by nlinarith)]
    nlinarith
  have hsq_1ma_pos : 0 < Real.sqrt (1 - (c * s)^2) :=
    lt_of_lt_of_le (by norm_num) hsq_1ma
  -- atan2 takes its positive-x branch, and arctan is below its argument
  unfold atan2
  rw [if_pos hsq_1ma_pos]
  have harg0 : 0 ≤ Real.sqrt ((c * s)^2) / Real.sqrt (1 - (c * s)^2) :=
    div_nonneg (Real.sqrt_nonneg _) (Real.sqrt_nonneg _)
  have harg_le : Real.sqrt ((c * s)^2) / Real.sqrt (1 - (c * s)^2) ≤
      0.0000272281 / 0.999 :=
    div_le_div (by norm_num) hsq_a (by norm_num) hsq_1ma
  have harctan : Real.arctan (Real.sqrt ((c * s)^2) / Real.sqrt (1 - (c * s)^2)) ≤
      0.0000272281 / 0.999 :=
    le_trans (arctan_le_self harg0) harg_le
  calc 6371000 * 2 *
      Real.arctan (Real.sqrt ((c * s)^2) / Real.sqrt (1 - (c * s)^2)) ≤
      6371000 * 2 * (0.0000272281 / 0.999) := by nlinarith
  _ ≤ 400 := by norm_num

/-- C10: the bounding-box pre-filter is not conservative.  The station at
(40.7°N, 74°W) — within the NYC latitude band — and an incident at the same
latitude but longitude −74.0041° are at most 400 haversine metres apart,
yet their longitudes differ by more than the 0.004° box, so
`computeStationRisk` skips the pair and the incident contributes nothing:
the join realizes "within box AND within radius", not "within radius". -/
theorem boundingBox_not_conservative :
    (40.5 : ℝ) ≤ 40.7 ∧ (40.7 : ℝ) ≤ 40.9 ∧
    |(-74.0041 : ℝ) - -74| > 0.004 ∧
    haversineMeters 40.7 (-74) 40.7 (-74.0041) ≤ 400 ∧
    ¬ crimeMatches ⟨40.7, -74⟩ ⟨40.7, -74.0041, some 14, some 1⟩ := by
  have habs : |(-74.0041 : ℝ) - -74| > 0.004 := by
    rw [show ((-74.0041 : ℝ) - -74) = -0.0041 by norm_num, abs_neg,
      abs_of_nonneg (by norm_num : (0:ℝ) ≤ 0.0041)]
    norm_num
  have habs2 : |(-74 : ℝ) - -74.0041| > 0.004 := by
    rw [show ((-74 : ℝ) - -74.0041) = 0.0041 by norm_num,
      abs_of_nonneg (by norm_num : (0:ℝ) ≤ 0.0041)]
    norm_num
  refine ⟨by norm_num, by norm_num, habs, haversine_040041_le, ?_⟩
  rintro ⟨-, -, hbox, -⟩
  exact hbox (Or.inr habs2)

/-- Witness for C10: the distance bound of the skipped pair, extracted from
the theorem at its concrete station and incident. -/
theorem boundingBox_not_conservative_witness :
    haversineMeters 40.7 (-74) 40.7 (-74.0041) ≤ 400 :=
  boundingBox_not_conservative.2.2.2.1

end EyesOnTheStreet
